import Mathlib

/-!
# Shallow embedding of `src/tcp_bbr3.c` (BBRv3 congestion-control estimator)

This file models the estimator core of the repository's single source file:
the bandwidth plateau filter (`bbr3_update_bw`), the windowed min-RTT filter
(`bbr3_update_min_rtt`), the phase state machine (`bbr3_update_model`), the
window computation (`bbr3_set_cwnd`), the per-ACK entry point (`bbr3_main`)
and initialization (`bbr3_init`).

Machine integers are modelled as `Nat`/`Int` with explicit reductions
`% 2 ^ 32` (for `u32` stores and `u32` arithmetic), `% 2 ^ 8` (for the `u8`
counter) and `% 2 ^ 64` (for the one `u64` product), exactly where the C
performs fixed-width arithmetic.  Signed C fields (`s32 delivered`,
`long interval_us`, `long rtt_us`) are modelled as `Int`; the range each C
type guarantees is supplied as a hypothesis where a theorem needs it.

Kernel facts fixed by the build configuration: `HZ` is taken as 1000
(jiffies per second), `TCP_CA_Open` as 0.  The module parameter
`min_rtt_win_sec` keeps its default value 5.
-/

/-- `#define BBR_SCALE 8`: scaling shift for fixed-point gains (1.0 = 256). -/
def BBR_SCALE : Nat := 8

/-- `#define BBR_UNIT (1 << BBR_SCALE)`. -/
def BBR_UNIT : Nat := 2 ^ BBR_SCALE

/-- `#define BW_SCALE 24`: scaling shift for bandwidth values. -/
def BW_SCALE : Nat := 24

/-- `#define BW_UNIT (1 << BW_SCALE)`. -/
def BW_UNIT : Nat := 2 ^ BW_SCALE

/-- One past the largest `u32` value: `u32` arithmetic reduces modulo this. -/
def U32_LIMIT : Nat := 2 ^ 32

/-- Jiffies per second of the modelled kernel build. -/
def HZ : Nat := 1000

/-- Module parameter `min_rtt_win_sec`, default 5 (seconds). -/
def min_rtt_win_sec : Nat := 5

/-- `u32` subtraction `a - b` (wrapping), both operands first reduced to 32
bits. -/
def u32sub (a b : Nat) : Nat :=
  (a % U32_LIMIT + (U32_LIMIT - b % U32_LIMIT)) % U32_LIMIT

/-- Linux `after(a, b)` on 32-bit jiffies: `(s32)(b - a) < 0`, i.e. the
wrapped difference `b - a` lands in the upper half of the 32-bit range. -/
def after (a b : Nat) : Bool :=
  decide (2 ^ 31 ≤ u32sub b a)

/-- `enum bbr_mode`: the four BBR phases. -/
inductive BbrMode where
  | BBR_STARTUP
  | BBR_DRAIN
  | BBR_PROBE_BW
  | BBR_PROBE_RTT
  deriving DecidableEq, Repr

/-- `struct bbr3`: the per-connection estimator state.  Field names follow the
C struct; the `u8` bitfields are modelled as `Bool`. -/
structure Bbr3 where
  min_rtt_us : Nat
  min_rtt_stamp : Nat
  probe_rtt_done_stamp : Nat
  full_bandwidth : Nat
  target_cwnd : Nat
  prior_cwnd : Nat
  cycle_start : Nat
  pacing_gain : Nat
  cwnd_gain : Nat
  mode : BbrMode
  prev_ca_state : Nat
  full_bandwidth_reached : Bool
  round_start : Bool
  packet_conservation : Bool
  probe_rtt_round_done : Bool
  has_seen_rtt : Bool
  full_bandwidth_count : Nat
  deriving DecidableEq, Repr

/-- The fields of `struct rate_sample` the estimator reads.  `delivered` is
`s32`, `interval_us` and `rtt_us` are `long`, `acked_sacked` is `u32`. -/
structure RateSample where
  delivered : Int
  interval_us : Int
  rtt_us : Int
  acked_sacked : Nat
  deriving DecidableEq, Repr

/-- The fields of `struct tcp_sock` the estimator reads or writes.
`mss_cache` and `snd_cwnd_clamp` are per-connection configuration; only
`snd_cwnd` is mutated by the modelled code. -/
structure TcpState where
  snd_cwnd : Nat
  snd_cwnd_clamp : Nat
  mss_cache : Nat
  deriving DecidableEq, Repr

/-- One sample-arrival event: the rate sample plus the ambient inputs the C
reads during its processing (`tcp_jiffies32` and `tcp_packets_in_flight`). -/
structure Event where
  rs : RateSample
  now : Nat
  packets_in_flight : Nat
  deriving DecidableEq, Repr

/-- `bbr_pacing_gain[]`: the 8-entry PROBE_BW gain table of the source.  It is
declared in the C file but never read by any function. -/
def bbr_pacing_gain : List Nat :=
  [BBR_UNIT * 5 / 4, BBR_UNIT * 3 / 4,
   BBR_UNIT, BBR_UNIT, BBR_UNIT,
   BBR_UNIT, BBR_UNIT, BBR_UNIT]

/-- `bbr_high_gain = BBR_UNIT * 2885 / 1000 + 1` (= 739 ≈ 2.89 in units of
256). -/
def bbr_high_gain : Nat := BBR_UNIT * 2885 / 1000 + 1

/-- `bbr_drain_gain = BBR_UNIT * 1000 / 2885` (= 88). -/
def bbr_drain_gain : Nat := BBR_UNIT * 1000 / 2885

/-- `bbr_cwnd_gain = BBR_UNIT * 2` (= 512, exactly 2.0 in units of 256). -/
def bbr_cwnd_gain : Nat := BBR_UNIT * 2

/-- `tcp_init_cwnd`: `min(10, max(2, 4380 / mss_cache))`. -/
def tcp_init_cwnd (mss_cache : Nat) : Nat :=
  min 10 (max 2 (4380 / mss_cache))

/-- `tcp_cwnd_reduction_target`: `max(snd_cwnd >> 1, 2)` — the DRAIN exit
target, derived from half the current window. -/
def tcp_cwnd_reduction_target (snd_cwnd : Nat) : Nat :=
  max (snd_cwnd / 2) 2

/-- `bbr3_init`: zero the struct, set the sentinel min RTT (`~0U`), the
STARTUP gains and mode, and the initial congestion window.  `now` is
`tcp_jiffies32` at initialization. -/
def bbr3_init (tp : TcpState) (now : Nat) : TcpState × Bbr3 :=
  ({ tp with snd_cwnd := tcp_init_cwnd tp.mss_cache },
   { min_rtt_us := U32_LIMIT - 1
     min_rtt_stamp := now % U32_LIMIT
     probe_rtt_done_stamp := 0
     full_bandwidth := 0
     target_cwnd := 0
     prior_cwnd := 0
     cycle_start := 0
     pacing_gain := bbr_high_gain
     cwnd_gain := bbr_cwnd_gain
     mode := BbrMode.BBR_STARTUP
     prev_ca_state := 0
     full_bandwidth_reached := false
     round_start := false
     packet_conservation := false
     probe_rtt_round_done := false
     has_seen_rtt := false
     full_bandwidth_count := 0 })

/-- Whether the min-RTT filter window has expired at time `now`:
`after(tcp_jiffies32, bbr->min_rtt_stamp + min_rtt_win_sec * HZ)`, the sum
computed in `u32`. -/
def rtt_filter_expired (now stamp : Nat) : Bool :=
  after now ((stamp + min_rtt_win_sec * HZ) % U32_LIMIT)

/-- `bbr3_update_min_rtt`: accept the sample when `rtt_us >= 0` and it is
below the stored minimum (`long` vs `u32` comparison, done in the signed
wider type) or the window has expired; the store into the `u32` field
truncates. -/
def bbr3_update_min_rtt (now : Nat) (bbr : Bbr3) (rs : RateSample) : Bbr3 :=
  if 0 ≤ rs.rtt_us ∧
     (rs.rtt_us < (bbr.min_rtt_us : Int) ∨ rtt_filter_expired now bbr.min_rtt_stamp = true) then
    { bbr with min_rtt_us := rs.rtt_us.toNat % U32_LIMIT
               min_rtt_stamp := now % U32_LIMIT }
  else bbr

/-- The bandwidth sample `bw = (u64)rs->delivered * BW_UNIT; do_div(bw,
rs->interval_us)`.  The multiplication is `u64`; `do_div` takes a `u32`
divisor, so the `long` interval is truncated to 32 bits (Lean's `Nat`
division by 0 yields 0 where the C would be undefined). -/
def sample_bw (rs : RateSample) : Nat :=
  rs.delivered.toNat * BW_UNIT % 2 ^ 64 / (rs.interval_us.toNat % U32_LIMIT)

/-- `bbr3_update_bw`: drop invalid samples (`delivered < 0` or
`interval_us <= 0`); while full bandwidth has not been reached, raise the
plateau estimate (a `u32` store, hence truncated) on a non-smaller sample
and reset the `u8` counter, else count the stall and latch
`full_bandwidth_reached` at 3. -/
def bbr3_update_bw (bbr : Bbr3) (rs : RateSample) : Bbr3 :=
  if rs.delivered < 0 ∨ rs.interval_us ≤ 0 then
    bbr
  else if bbr.full_bandwidth_reached = false then
    if bbr.full_bandwidth ≤ sample_bw rs then
      { bbr with full_bandwidth := sample_bw rs % U32_LIMIT
                 full_bandwidth_count := 0 }
    else
      { bbr with full_bandwidth_count := (bbr.full_bandwidth_count + 1) % 2 ^ 8
                 full_bandwidth_reached :=
                   decide (3 ≤ (bbr.full_bandwidth_count + 1) % 2 ^ 8) }
  else bbr

/-- The two filter updates `bbr3_update_model` performs first, in call order:
`bbr3_update_bw(sk, rs); bbr3_update_min_rtt(sk, rs);`. -/
def bbr3_filters (e : Event) (bbr : Bbr3) : Bbr3 :=
  bbr3_update_min_rtt e.now (bbr3_update_bw bbr e.rs) e.rs

/-- The `switch (bbr->mode)` at the end of `bbr3_update_model`: one case is
taken, and it performs at most one transition. -/
def bbr3_transition (e : Event) (tp : TcpState) (bbr : Bbr3) : Bbr3 :=
  match bbr.mode with
  | BbrMode.BBR_STARTUP =>
      if bbr.full_bandwidth_reached = true then
        { bbr with mode := BbrMode.BBR_DRAIN
                   pacing_gain := bbr_drain_gain
                   cwnd_gain := bbr_high_gain }
      else bbr
  | BbrMode.BBR_DRAIN =>
      if e.packets_in_flight ≤ tcp_cwnd_reduction_target tp.snd_cwnd then
        { bbr with mode := BbrMode.BBR_PROBE_BW
                   pacing_gain := BBR_UNIT
                   cwnd_gain := BBR_UNIT }
      else bbr
  | BbrMode.BBR_PROBE_BW => bbr
  | BbrMode.BBR_PROBE_RTT =>
      if after e.now bbr.probe_rtt_done_stamp = true then
        { bbr with mode := BbrMode.BBR_PROBE_BW
                   pacing_gain := BBR_UNIT }
      else bbr

/-- `bbr3_update_model`: run both filters, then the `switch` on the (updated)
state. -/
def bbr3_update_model (e : Event) (tp : TcpState) (bbr : Bbr3) : Bbr3 :=
  bbr3_transition e tp (bbr3_filters e bbr)

/-- `bbr3_set_cwnd`: with nothing acked, only clear the `target_cwnd` field;
in STARTUP or without a model, grow the window by `acked`; otherwise compute
the gain-scaled BDP target with 3-MSS headroom (every intermediate held in a
`u32`), cap it by `snd_cwnd + acked`, floor the window at 4 and clamp it at
`snd_cwnd_clamp`. -/
def bbr3_set_cwnd (tp : TcpState) (bbr : Bbr3) (acked bw gain : Nat) :
    TcpState × Bbr3 :=
  if acked = 0 then
    (tp, { bbr with target_cwnd := 0 })
  else if bbr.mode = BbrMode.BBR_STARTUP then
    let cwnd := min (max ((tp.snd_cwnd + acked) % U32_LIMIT) 4) tp.snd_cwnd_clamp
    ({ tp with snd_cwnd := cwnd }, { bbr with target_cwnd := 0 })
  else if bbr.min_rtt_us < U32_LIMIT - 1 ∧ bw ≠ 0 then
    let t1 := (bw * bbr.min_rtt_us / BW_UNIT) % U32_LIMIT
    let t2 := (t1 * gain) % U32_LIMIT / 2 ^ BBR_SCALE
    let target := (t2 + (3 * tp.mss_cache) % U32_LIMIT) % U32_LIMIT
    let cwnd :=
      min (max (min target ((tp.snd_cwnd + acked) % U32_LIMIT)) 4) tp.snd_cwnd_clamp
    ({ tp with snd_cwnd := cwnd }, { bbr with target_cwnd := target })
  else
    let cwnd := min (max ((tp.snd_cwnd + acked) % U32_LIMIT) 4) tp.snd_cwnd_clamp
    ({ tp with snd_cwnd := cwnd }, { bbr with target_cwnd := 0 })

/-- `bbr3_main`: the `cong_control` entry point — update the model, then set
the window from `full_bandwidth` and `cwnd_gain` with `acked_sacked`. -/
def bbr3_main (e : Event) (s : TcpState × Bbr3) : TcpState × Bbr3 :=
  let bbr := bbr3_update_model e s.1 s.2
  bbr3_set_cwnd s.1 bbr e.rs.acked_sacked bbr.full_bandwidth bbr.cwnd_gain

/-- A whole sample stream applied in arrival order. -/
def bbr3_run (s : TcpState × Bbr3) (es : List Event) : TcpState × Bbr3 :=
  es.foldl (fun st e => bbr3_main e st) s

/-- The states an estimator instance can be in: freshly initialized, or one
sample event after a reachable state. -/
inductive Reachable : TcpState × Bbr3 → Prop where
  | init (tp : TcpState) (now : Nat) : Reachable (bbr3_init tp now)
  | step (e : Event) (s : TcpState × Bbr3) : Reachable s → Reachable (bbr3_main e s)

/-- The window target as the specification words it (§4.4): with no model
(`min_rtt` unknown or zero bandwidth) additive growth `prior + acked`;
otherwise the gain-scaled bandwidth-delay product (the bandwidth argument
carries the code's `BW_UNIT` scaling) plus a 3-MSS headroom, capped by
`prior + acked`. -/
def spec_compute_window (bw : Nat) (min_rtt : Option Nat)
    (gain prior_window acked mss : Nat) : Nat :=
  match min_rtt with
  | none => prior_window + acked
  | some r =>
      if bw = 0 then prior_window + acked
      else min (bw * r / BW_UNIT * gain / BBR_UNIT + 3 * mss)
               (prior_window + acked)

/-- A per-connection TCP state used by the concrete scenarios below:
MSS 1460, a large clamp, window not yet set (init sets it). -/
def demo_tp : TcpState := { snd_cwnd := 0, snd_cwnd_clamp := 10000, mss_cache := 1460 }

/-- The estimator state right after `bbr3_init` on `demo_tp` at time 0; the
concrete counterexamples below start from (variations of) it. -/
def bbr3_demo_base : Bbr3 := (bbr3_init demo_tp 0).2

/-- A sample delivering 1 packet in 1 microsecond (no RTT measurement). -/
def demo_e1 : Event :=
  { rs := { delivered := 1, interval_us := 1, rtt_us := -1, acked_sacked := 1 }
    now := 0, packets_in_flight := 100 }

/-- A sample delivering nothing: its rate 0 does not improve a positive
estimate. -/
def demo_stall : Event :=
  { rs := { delivered := 0, interval_us := 1, rtt_us := -1, acked_sacked := 1 }
    now := 0, packets_in_flight := 100 }

/-- A stalled sample observed with an empty pipe, letting DRAIN exit. -/
def demo_drain_exit : Event :=
  { rs := { delivered := 0, interval_us := 1, rtt_us := -1, acked_sacked := 1 }
    now := 0, packets_in_flight := 0 }

/-- A concrete reachable PROBE_BW state: one improving sample, three stalls
(the third latches `full_bandwidth_reached` and moves STARTUP → DRAIN), then
an empty-pipe sample (DRAIN → PROBE_BW). -/
def demo_probe_bw_state : TcpState × Bbr3 :=
  bbr3_main demo_drain_exit (bbr3_main demo_stall (bbr3_main demo_stall
    (bbr3_main demo_stall (bbr3_main demo_e1 (bbr3_init demo_tp 0)))))

/-- A valid sample of rate 2^25 (2 packets in 1 us). -/
def cex_rate2 : RateSample :=
  { delivered := 2, interval_us := 1, rtt_us := -1, acked_sacked := 0 }

/-- A valid sample of rate 2^32 (256 packets in 1 us): its `u32` store wraps
to 0. -/
def cex_rate256 : RateSample :=
  { delivered := 256, interval_us := 1, rtt_us := -1, acked_sacked := 0 }

/-- An estimator state that has already latched `full_bandwidth_reached`. -/
def cex_frozen_state : Bbr3 :=
  { bbr3_demo_base with full_bandwidth := 100, full_bandwidth_reached := true }

/-- An estimator state whose stored estimate is 255 * 2^24, still probing. -/
def cex_wrap_state : Bbr3 :=
  { bbr3_demo_base with full_bandwidth := 255 * 2 ^ 24 }

/-- TCP state for the stale-min-RTT scenario. -/
def cex_stale_tp : TcpState :=
  { snd_cwnd := 10000, snd_cwnd_clamp := 100000, mss_cache := 100 }

/-- PROBE_BW state whose min-RTT was recorded at time 0. -/
def cex_stale_bbr : Bbr3 :=
  { bbr3_demo_base with mode := BbrMode.BBR_PROBE_BW, min_rtt_us := 50, min_rtt_stamp := 0 }

/-- A sample event at time 100000 jiffies, far beyond the 5000-jiffy window. -/
def cex_stale_event : Event :=
  { rs := { delivered := 1, interval_us := 1, rtt_us := 60, acked_sacked := 1 }
    now := 100000, packets_in_flight := 5 }

/-- TCP state for the C7 witness scenario. -/
def c7_tp : TcpState := { snd_cwnd := 1000, snd_cwnd_clamp := 100000, mss_cache := 100 }

/-- PROBE_BW estimator state with a known min RTT of 1000 us. -/
def c7_bbr : Bbr3 :=
  { bbr3_demo_base with mode := BbrMode.BBR_PROBE_BW, min_rtt_us := 1000 }

/-- TCP state for the C7 counterexample. -/
def c7_cex_tp : TcpState :=
  { snd_cwnd := 10000, snd_cwnd_clamp := 100000, mss_cache := 100 }

/-- STARTUP estimator state with a known min RTT of 1000 us and a model. -/
def c7_cex_startup : Bbr3 := { bbr3_demo_base with min_rtt_us := 1000 }

/-- PROBE_BW variant of the same state. -/
def c7_cex_probe : Bbr3 :=
  { bbr3_demo_base with mode := BbrMode.BBR_PROBE_BW, min_rtt_us := 1000 }

/-- A small TCP state (cwnd 10, clamp 1000, MSS 100). -/
def c8_cex_tp : TcpState := { snd_cwnd := 10, snd_cwnd_clamp := 1000, mss_cache := 100 }

/-- A valid sample event (1 packet / 1 us, RTT 50, 1 segment acked). -/
def c8_cex_event : Event :=
  { rs := { delivered := 1, interval_us := 1, rtt_us := 50, acked_sacked := 1 }
    now := 0, packets_in_flight := 5 }

/-- The same event without an RTT measurement. -/
def c8_cex_event_nortt : Event :=
  { rs := { delivered := 1, interval_us := 1, rtt_us := -1, acked_sacked := 1 }
    now := 0, packets_in_flight := 5 }

/-- A plateaued PROBE_BW state with a large model (bw 2^28, min RTT 100000). -/
def c8_cex_big : Bbr3 :=
  { bbr3_demo_base with
    mode := BbrMode.BBR_PROBE_BW
    min_rtt_us := 100000
    full_bandwidth := 2 ^ 28
    full_bandwidth_reached := true }

/-- The invalid sample of the C9 scenario: `interval_us = 0`. -/
def c9_event : Event :=
  { rs := { delivered := 0, interval_us := 0, rtt_us := 10, acked_sacked := 1 }
    now := 0, packets_in_flight := 0 }

/-- The DRAIN-phase connection state the C9 scenario starts from. -/
def c9_state : TcpState × Bbr3 :=
  ({ snd_cwnd := 10, snd_cwnd_clamp := 1000, mss_cache := 100 },
   { bbr3_demo_base with mode := BbrMode.BBR_DRAIN, min_rtt_us := 100 })

theorem demo_probe_bw_reachable : Reachable demo_probe_bw_state := by
  unfold demo_probe_bw_state
  exact .step _ _ (.step _ _ (.step _ _ (.step _ _ (.step _ _ (.init _ _)))))

theorem bbr3_update_bw_frame (bbr : Bbr3) (rs : RateSample) :
    (bbr3_update_bw bbr rs).mode = bbr.mode ∧
    (bbr3_update_bw bbr rs).pacing_gain = bbr.pacing_gain ∧
    (bbr3_update_bw bbr rs).cwnd_gain = bbr.cwnd_gain ∧
    (bbr3_update_bw bbr rs).min_rtt_us = bbr.min_rtt_us ∧
    (bbr3_update_bw bbr rs).min_rtt_stamp = bbr.min_rtt_stamp ∧
    (bbr3_update_bw bbr rs).probe_rtt_done_stamp = bbr.probe_rtt_done_stamp ∧
    (bbr3_update_bw bbr rs).target_cwnd = bbr.target_cwnd := by
  unfold bbr3_update_bw
  split_ifs <;> simp

theorem bbr3_update_min_rtt_frame (now : Nat) (bbr : Bbr3) (rs : RateSample) :
    (bbr3_update_min_rtt now bbr rs).mode = bbr.mode ∧
    (bbr3_update_min_rtt now bbr rs).pacing_gain = bbr.pacing_gain ∧
    (bbr3_update_min_rtt now bbr rs).cwnd_gain = bbr.cwnd_gain ∧
    (bbr3_update_min_rtt now bbr rs).full_bandwidth = bbr.full_bandwidth ∧
    (bbr3_update_min_rtt now bbr rs).full_bandwidth_count = bbr.full_bandwidth_count ∧
    (bbr3_update_min_rtt now bbr rs).full_bandwidth_reached = bbr.full_bandwidth_reached ∧
    (bbr3_update_min_rtt now bbr rs).probe_rtt_done_stamp = bbr.probe_rtt_done_stamp ∧
    (bbr3_update_min_rtt now bbr rs).target_cwnd = bbr.target_cwnd := by
  unfold bbr3_update_min_rtt
  split_ifs <;> simp

theorem bbr3_filters_frame (e : Event) (bbr : Bbr3) :
    (bbr3_filters e bbr).mode = bbr.mode ∧
    (bbr3_filters e bbr).pacing_gain = bbr.pacing_gain ∧
    (bbr3_filters e bbr).cwnd_gain = bbr.cwnd_gain ∧
    (bbr3_filters e bbr).probe_rtt_done_stamp = bbr.probe_rtt_done_stamp ∧
    (bbr3_filters e bbr).target_cwnd = bbr.target_cwnd := by
  unfold bbr3_filters
  have h1 := bbr3_update_bw_frame bbr e.rs
  have h2 := bbr3_update_min_rtt_frame e.now (bbr3_update_bw bbr e.rs) e.rs
  exact ⟨h2.1.trans h1.1, h2.2.1.trans h1.2.1, h2.2.2.1.trans h1.2.2.1,
    h2.2.2.2.2.2.2.1.trans h1.2.2.2.2.2.1, h2.2.2.2.2.2.2.2.trans h1.2.2.2.2.2.2⟩

theorem bbr3_transition_filter_frame (e : Event) (tp : TcpState) (bbr : Bbr3) :
    (bbr3_transition e tp bbr).full_bandwidth = bbr.full_bandwidth ∧
    (bbr3_transition e tp bbr).full_bandwidth_count = bbr.full_bandwidth_count ∧
    (bbr3_transition e tp bbr).full_bandwidth_reached = bbr.full_bandwidth_reached ∧
    (bbr3_transition e tp bbr).min_rtt_us = bbr.min_rtt_us ∧
    (bbr3_transition e tp bbr).min_rtt_stamp = bbr.min_rtt_stamp ∧
    (bbr3_transition e tp bbr).probe_rtt_done_stamp = bbr.probe_rtt_done_stamp := by
  unfold bbr3_transition
  split <;> (try split_ifs) <;> simp

theorem bbr3_set_cwnd_frame (tp : TcpState) (bbr : Bbr3) (acked bw gain : Nat) :
    (bbr3_set_cwnd tp bbr acked bw gain).2.mode = bbr.mode ∧
    (bbr3_set_cwnd tp bbr acked bw gain).2.pacing_gain = bbr.pacing_gain ∧
    (bbr3_set_cwnd tp bbr acked bw gain).2.cwnd_gain = bbr.cwnd_gain ∧
    (bbr3_set_cwnd tp bbr acked bw gain).2.full_bandwidth = bbr.full_bandwidth ∧
    (bbr3_set_cwnd tp bbr acked bw gain).2.full_bandwidth_count = bbr.full_bandwidth_count ∧
    (bbr3_set_cwnd tp bbr acked bw gain).2.full_bandwidth_reached = bbr.full_bandwidth_reached ∧
    (bbr3_set_cwnd tp bbr acked bw gain).2.min_rtt_us = bbr.min_rtt_us ∧
    (bbr3_set_cwnd tp bbr acked bw gain).2.min_rtt_stamp = bbr.min_rtt_stamp ∧
    (bbr3_set_cwnd tp bbr acked bw gain).2.probe_rtt_done_stamp = bbr.probe_rtt_done_stamp ∧
    (bbr3_set_cwnd tp bbr acked bw gain).1.snd_cwnd_clamp = tp.snd_cwnd_clamp ∧
    (bbr3_set_cwnd tp bbr acked bw gain).1.mss_cache = tp.mss_cache := by
  unfold bbr3_set_cwnd
  split_ifs <;> simp

theorem bbr3_update_bw_frozen (bbr : Bbr3) (rs : RateSample)
    (h : bbr.full_bandwidth_reached = true) : bbr3_update_bw bbr rs = bbr := by
  unfold bbr3_update_bw
  split_ifs <;> simp_all

theorem bbr3_update_bw_mono (bbr : Bbr3) (rs : RateSample)
    (h : sample_bw rs < U32_LIMIT) :
    bbr.full_bandwidth ≤ (bbr3_update_bw bbr rs).full_bandwidth := by
  unfold bbr3_update_bw
  split_ifs with h1 h2 h3 <;> simp_all [Nat.mod_eq_of_lt h]

theorem bbr3_update_bw_foldl (l : List RateSample) : ∀ bbr : Bbr3,
    (∀ r ∈ l, sample_bw r < U32_LIMIT) →
    bbr.full_bandwidth ≤ (List.foldl bbr3_update_bw bbr l).full_bandwidth ∧
    (bbr.full_bandwidth_reached = true →
      (List.foldl bbr3_update_bw bbr l).full_bandwidth_reached = true) := by
  induction l with
  | nil => intro bbr _; exact ⟨le_refl _, fun h => h⟩
  | cons r t ih =>
      intro bbr h
      have hr : sample_bw r < U32_LIMIT := h r (by simp)
      have ht : ∀ x ∈ t, sample_bw x < U32_LIMIT := fun x hx => h x (by simp [hx])
      refine ⟨?_, ?_⟩
      · exact le_trans (bbr3_update_bw_mono bbr r hr)
          ((ih (bbr3_update_bw bbr r) ht).1)
      · intro hreach
        have := bbr3_update_bw_frozen bbr r hreach
        simp only [List.foldl_cons, this]
        exact (ih bbr ht).2 hreach

theorem bbr3_main_proj (e : Event) (s : TcpState × Bbr3) :
    (bbr3_main e s).2.full_bandwidth = (bbr3_update_bw s.2 e.rs).full_bandwidth ∧
    (bbr3_main e s).2.full_bandwidth_count = (bbr3_update_bw s.2 e.rs).full_bandwidth_count ∧
    (bbr3_main e s).2.full_bandwidth_reached = (bbr3_update_bw s.2 e.rs).full_bandwidth_reached ∧
    (bbr3_main e s).2.min_rtt_us = (bbr3_filters e s.2).min_rtt_us ∧
    (bbr3_main e s).2.min_rtt_stamp = (bbr3_filters e s.2).min_rtt_stamp ∧
    (bbr3_main e s).2.mode = (bbr3_update_model e s.1 s.2).mode ∧
    (bbr3_main e s).2.pacing_gain = (bbr3_update_model e s.1 s.2).pacing_gain ∧
    (bbr3_main e s).2.cwnd_gain = (bbr3_update_model e s.1 s.2).cwnd_gain := by
  obtain ⟨hm, hp, hc, hfb, hfc, hfr, hru, hrs, _⟩ :=
    bbr3_set_cwnd_frame s.1 (bbr3_update_model e s.1 s.2) e.rs.acked_sacked
      (bbr3_update_model e s.1 s.2).full_bandwidth (bbr3_update_model e s.1 s.2).cwnd_gain
  obtain ⟨tfb, tfc, tfr, tru, trs, _⟩ :=
    bbr3_transition_filter_frame e s.1 (bbr3_filters e s.2)
  obtain ⟨_, _, _, ffb, ffc, ffr, _, _⟩ :=
    bbr3_update_min_rtt_frame e.now (bbr3_update_bw s.2 e.rs) e.rs
  exact ⟨hfb.trans (tfb.trans ffb), hfc.trans (tfc.trans ffc),
    hfr.trans (tfr.trans ffr), hru.trans tru, hrs.trans trs, hm, hp, hc⟩

theorem bbr3_transition_mode_cases (e : Event) (tp : TcpState) (bbr : Bbr3) :
    (bbr3_transition e tp bbr).mode = bbr.mode ∨
    (bbr.mode = BbrMode.BBR_STARTUP ∧
      (bbr3_transition e tp bbr).mode = BbrMode.BBR_DRAIN) ∨
    (bbr.mode = BbrMode.BBR_DRAIN ∧
      (bbr3_transition e tp bbr).mode = BbrMode.BBR_PROBE_BW) ∨
    (bbr.mode = BbrMode.BBR_PROBE_RTT ∧
      (bbr3_transition e tp bbr).mode = BbrMode.BBR_PROBE_BW) := by
  unfold bbr3_transition
  split <;> (try split_ifs) <;> simp_all

theorem bbr3_main_mode_cases (e : Event) (s : TcpState × Bbr3) :
    (bbr3_main e s).2.mode = s.2.mode ∨
    (s.2.mode = BbrMode.BBR_STARTUP ∧
      (bbr3_main e s).2.mode = BbrMode.BBR_DRAIN) ∨
    (s.2.mode = BbrMode.BBR_DRAIN ∧
      (bbr3_main e s).2.mode = BbrMode.BBR_PROBE_BW) ∨
    (s.2.mode = BbrMode.BBR_PROBE_RTT ∧
      (bbr3_main e s).2.mode = BbrMode.BBR_PROBE_BW) := by
  have hproj := (bbr3_main_proj e s).2.2.2.2.2.1
  have hfil := (bbr3_filters_frame e s.2).1
  have hcases := bbr3_transition_mode_cases e s.1 (bbr3_filters e s.2)
  rw [show bbr3_update_model e s.1 s.2 = bbr3_transition e s.1 (bbr3_filters e s.2) from rfl]
    at hproj
  rw [hfil] at hcases
  rcases hcases with h | h | h | h
  · exact Or.inl (hproj.trans h)
  · exact Or.inr (Or.inl ⟨h.1, hproj.trans h.2⟩)
  · exact Or.inr (Or.inr (Or.inl ⟨h.1, hproj.trans h.2⟩))
  · exact Or.inr (Or.inr (Or.inr ⟨h.1, hproj.trans h.2⟩))

/-- C6 (amended): after `bbr3_init` the estimator has the unknown-sentinel
min RTT (`~0U` = 2^32 − 1), phase STARTUP, `pacing_gain` at the high startup
gain 739 (2885/1000 of 256, ≈ 2.89×) — but `cwnd_gain` at `bbr_cwnd_gain` =
512, exactly 2×, not the high startup gain. -/
theorem bbr3_init_state_amended (tp : TcpState) (now : Nat) :
    (bbr3_init tp now).2.min_rtt_us = U32_LIMIT - 1 ∧
    (bbr3_init tp now).2.mode = BbrMode.BBR_STARTUP ∧
    (bbr3_init tp now).2.pacing_gain = bbr_high_gain ∧
    (bbr3_init tp now).2.pacing_gain = 739 ∧
    (bbr3_init tp now).2.cwnd_gain = bbr_cwnd_gain ∧
    (bbr3_init tp now).2.cwnd_gain = 512 ∧
    (bbr3_init tp now).2.full_bandwidth = 0 ∧
    (bbr3_init tp now).2.full_bandwidth_reached = false :=
  ⟨rfl, rfl, rfl, rfl, rfl, rfl, rfl, rfl⟩

/-- C6 counterexample: at initialization `cwnd_gain` is 512 (exactly 2×),
which differs from the high startup gain 739, so pacing and cwnd gains are
not both the ≈2.77× startup gain as claimed. -/
theorem bbr3_init_gain_cex :
    (bbr3_init demo_tp 0).2.cwnd_gain = 512 ∧
    (bbr3_init demo_tp 0).2.pacing_gain = 739 ∧
    (512 : Nat) = 2 * BBR_UNIT ∧
    (512 : Nat) ≠ bbr_high_gain := by
  refine ⟨rfl, rfl, rfl, ?_⟩
  decide

/-- C2 (amended): the min-RTT filter ignores negative RTT samples (but a
zero RTT is accepted, so only negative — not all non-positive — samples are
ignored); a sample with `rtt_us ≥ 0` replaces the stored minimum and its
timestamp exactly when it is below the stored minimum or the minimum's age
exceeds the 5-second window; while the window has not expired, `min_rtt_us`
never increases. -/
theorem bbr3_update_min_rtt_amended (now : Nat) (bbr : Bbr3) (rs : RateSample) :
    (rs.rtt_us < 0 → bbr3_update_min_rtt now bbr rs = bbr) ∧
    (0 ≤ rs.rtt_us →
      ((rs.rtt_us < (bbr.min_rtt_us : Int) ∨
          rtt_filter_expired now bbr.min_rtt_stamp = true) →
        (bbr3_update_min_rtt now bbr rs).min_rtt_us = rs.rtt_us.toNat % U32_LIMIT ∧
        (bbr3_update_min_rtt now bbr rs).min_rtt_stamp = now % U32_LIMIT) ∧
      (¬(rs.rtt_us < (bbr.min_rtt_us : Int) ∨
          rtt_filter_expired now bbr.min_rtt_stamp = true) →
        bbr3_update_min_rtt now bbr rs = bbr)) ∧
    (rtt_filter_expired now bbr.min_rtt_stamp = false →
      (bbr3_update_min_rtt now bbr rs).min_rtt_us ≤ bbr.min_rtt_us) := by
  unfold bbr3_update_min_rtt
  split_ifs with h
  · refine ⟨fun hneg => absurd h.1 (by omega), fun _ => ⟨fun _ => ⟨rfl, rfl⟩, fun hc => absurd h.2 hc⟩, ?_⟩
    intro hexp
    have hlt : rs.rtt_us < (bbr.min_rtt_us : Int) := by
      rcases h.2 with hl | he
      · exact hl
      · rw [hexp] at he; exact absurd he (by simp)
    have h0 := h.1
    simp only [U32_LIMIT] at *
    omega
  · refine ⟨fun _ => rfl, fun hpos => ⟨fun hc => absurd ⟨hpos, hc⟩ h, fun _ => rfl⟩, fun _ => le_refl _⟩

/-- C2 counterexample: an RTT sample of exactly 0 is non-positive, yet the
filter accepts it (the guard is `rtt_us >= 0`): from a stored minimum of 5
with an unexpired window, the sample `rtt_us = 0` overwrites the minimum. -/
theorem bbr3_update_min_rtt_zero_cex :
    (bbr3_update_min_rtt 0 { bbr3_demo_base with min_rtt_us := 5, min_rtt_stamp := 0 }
      { delivered := 0, interval_us := 1, rtt_us := 0, acked_sacked := 0 }).min_rtt_us = 0 ∧
    rtt_filter_expired 0 0 = false ∧
    (0 : Nat) ≠ 5 := by
  decide

/-- C1 (amended): for a valid sample (`delivered ≥ 0`, `interval_us > 0`)
processed while `full_bandwidth_reached` is false, the computed rate
`delivered * 2^24 / interval` raises the plateau estimate (truncated to the
32-bit field) and resets the stall counter when it is at least the current
estimate, and otherwise increments the counter, latching
`full_bandwidth_reached` at 3 consecutive non-improving observations; once
the flag is true every sample leaves the bandwidth state unchanged, so the
flag remains true; and over any sequence of samples whose rates stay below
2^32 the estimate is non-decreasing. -/
theorem bbr3_update_bw_plateau_amended (bbr : Bbr3) (rs : RateSample) :
    (0 ≤ rs.delivered → 0 < rs.interval_us → bbr.full_bandwidth_reached = false →
      (bbr.full_bandwidth ≤ sample_bw rs →
        (bbr3_update_bw bbr rs).full_bandwidth = sample_bw rs % U32_LIMIT ∧
        (bbr3_update_bw bbr rs).full_bandwidth_count = 0 ∧
        (bbr3_update_bw bbr rs).full_bandwidth_reached = false) ∧
      (sample_bw rs < bbr.full_bandwidth → bbr.full_bandwidth_count < 255 →
        (bbr3_update_bw bbr rs).full_bandwidth = bbr.full_bandwidth ∧
        (bbr3_update_bw bbr rs).full_bandwidth_count = bbr.full_bandwidth_count + 1 ∧
        ((bbr3_update_bw bbr rs).full_bandwidth_reached = true ↔
          3 ≤ bbr.full_bandwidth_count + 1))) ∧
    (bbr.full_bandwidth_reached = true → bbr3_update_bw bbr rs = bbr) ∧
    (sample_bw rs < U32_LIMIT →
      bbr.full_bandwidth ≤ (bbr3_update_bw bbr rs).full_bandwidth) ∧
    (∀ l : List RateSample, (∀ r ∈ l, sample_bw r < U32_LIMIT) →
      bbr.full_bandwidth ≤ (List.foldl bbr3_update_bw bbr l).full_bandwidth ∧
      (bbr.full_bandwidth_reached = true →
        (List.foldl bbr3_update_bw bbr l).full_bandwidth_reached = true)) := by
  refine ⟨?_, bbr3_update_bw_frozen bbr rs, bbr3_update_bw_mono bbr rs,
    fun l hl => bbr3_update_bw_foldl l bbr hl⟩
  intro hd hi hreach
  constructor
  · intro himp
    unfold bbr3_update_bw
    split_ifs <;> simp_all <;> omega
  · intro hstall hcnt
    unfold bbr3_update_bw
    split_ifs <;> simp_all <;> omega

/-- C1 counterexample: (a) with `full_bandwidth_reached` already true and a
stored estimate of 100, a valid sample of rate 2^25 >= 100 does not raise the
estimate (the claim says every valid sample with rate at least the estimate
raises it); (b) with a stored estimate 255 * 2^24, a valid sample of rate
2^32 truncates to 0 in the `u32` store, so the estimate decreases — the
claimed unconditional monotonicity fails at 32-bit wraparound. -/
theorem bbr3_update_bw_cex :
    (bbr3_update_bw cex_frozen_state cex_rate2).full_bandwidth = 100 ∧
    sample_bw cex_rate2 = 2 ^ 25 ∧
    (100 : Nat) < 2 ^ 25 ∧
    (bbr3_update_bw cex_wrap_state cex_rate256).full_bandwidth = 0 ∧
    sample_bw cex_rate256 = 2 ^ 32 ∧
    cex_wrap_state.full_bandwidth ≤ sample_bw cex_rate256 ∧
    (0 : Nat) < 255 * 2 ^ 24 := by
  decide

theorem bbr3_main_not_to_startup (e : Event) (s : TcpState × Bbr3)
    (h : s.2.mode ≠ BbrMode.BBR_STARTUP) :
    (bbr3_main e s).2.mode ≠ BbrMode.BBR_STARTUP := by
  rcases bbr3_main_mode_cases e s with hc | hc | hc | hc
  · rw [hc]; exact h
  · exact absurd hc.1 h
  · rw [hc.2]; decide
  · rw [hc.2]; decide

theorem bbr3_run_not_startup (es : List Event) : ∀ s : TcpState × Bbr3,
    s.2.mode ≠ BbrMode.BBR_STARTUP →
    (bbr3_run s es).2.mode ≠ BbrMode.BBR_STARTUP := by
  induction es with
  | nil => exact fun s h => h
  | cons e t ih =>
      intro s h
      have hstep := bbr3_main_not_to_startup e s h
      simpa [bbr3_run, List.foldl_cons] using ih (bbr3_main e s) hstep

theorem bbr3_transition_startup_iff (e : Event) (tp : TcpState) (bbr : Bbr3)
    (h : bbr.mode = BbrMode.BBR_STARTUP) :
    ((bbr3_transition e tp bbr).mode = BbrMode.BBR_DRAIN ↔
      bbr.full_bandwidth_reached = true) ∧
    (bbr.full_bandwidth_reached = true →
      (bbr3_transition e tp bbr).pacing_gain = bbr_drain_gain ∧
      (bbr3_transition e tp bbr).cwnd_gain = bbr_high_gain) := by
  unfold bbr3_transition
  rw [h]
  split_ifs with hr <;> simp_all

theorem bbr3_transition_drain_iff (e : Event) (tp : TcpState) (bbr : Bbr3)
    (h : bbr.mode = BbrMode.BBR_DRAIN) :
    ((bbr3_transition e tp bbr).mode = BbrMode.BBR_PROBE_BW ↔
      e.packets_in_flight ≤ tcp_cwnd_reduction_target tp.snd_cwnd) ∧
    (e.packets_in_flight ≤ tcp_cwnd_reduction_target tp.snd_cwnd →
      (bbr3_transition e tp bbr).pacing_gain = BBR_UNIT ∧
      (bbr3_transition e tp bbr).cwnd_gain = BBR_UNIT) := by
  unfold bbr3_transition
  rw [h]
  split_ifs with hr <;> simp_all

/-- C3: per sample event the two filters are applied first and the updated
state feeds one `switch` that performs at most one transition
(`mode` stays, or moves STARTUP → DRAIN, DRAIN → PROBE_BW, or
PROBE_RTT → PROBE_BW); from STARTUP the transition to DRAIN happens exactly
when the post-filter `full_bandwidth_reached` is true; from DRAIN the
transition to PROBE_BW happens exactly when packets in flight are at or
below `max(snd_cwnd/2, 2)`; the transition never changes the freshly
computed filter outputs; and over any event sequence a state that has left
STARTUP never returns to STARTUP. -/
theorem bbr3_phase_progression (e : Event) (tp : TcpState) (bbr : Bbr3)
    (s : TcpState × Bbr3) (es : List Event) :
    ((bbr3_update_model e tp bbr).mode = bbr.mode ∨
      (bbr.mode = BbrMode.BBR_STARTUP ∧
        (bbr3_update_model e tp bbr).mode = BbrMode.BBR_DRAIN) ∨
      (bbr.mode = BbrMode.BBR_DRAIN ∧
        (bbr3_update_model e tp bbr).mode = BbrMode.BBR_PROBE_BW) ∨
      (bbr.mode = BbrMode.BBR_PROBE_RTT ∧
        (bbr3_update_model e tp bbr).mode = BbrMode.BBR_PROBE_BW)) ∧
    (bbr.mode = BbrMode.BBR_STARTUP →
      ((bbr3_update_model e tp bbr).mode = BbrMode.BBR_DRAIN ↔
        (bbr3_filters e bbr).full_bandwidth_reached = true)) ∧
    (bbr.mode = BbrMode.BBR_DRAIN →
      ((bbr3_update_model e tp bbr).mode = BbrMode.BBR_PROBE_BW ↔
        e.packets_in_flight ≤ tcp_cwnd_reduction_target tp.snd_cwnd)) ∧
    ((bbr3_update_model e tp bbr).full_bandwidth =
        (bbr3_filters e bbr).full_bandwidth ∧
      (bbr3_update_model e tp bbr).min_rtt_us = (bbr3_filters e bbr).min_rtt_us) ∧
    (s.2.mode ≠ BbrMode.BBR_STARTUP →
      (bbr3_run s es).2.mode ≠ BbrMode.BBR_STARTUP) := by
  have hfil := (bbr3_filters_frame e bbr).1
  have hmodel : bbr3_update_model e tp bbr = bbr3_transition e tp (bbr3_filters e bbr) := rfl
  refine ⟨?_, ?_, ?_, ?_, bbr3_run_not_startup es s⟩
  · have hc := bbr3_transition_mode_cases e tp (bbr3_filters e bbr)
    rw [hfil] at hc
    rw [hmodel]
    exact hc
  · intro hm
    rw [hmodel]
    exact (bbr3_transition_startup_iff e tp (bbr3_filters e bbr) (hfil.trans hm)).1
  · intro hm
    rw [hmodel]
    exact (bbr3_transition_drain_iff e tp (bbr3_filters e bbr) (hfil.trans hm)).1
  · rw [hmodel]
    have hframe := bbr3_transition_filter_frame e tp (bbr3_filters e bbr)
    exact ⟨hframe.1, hframe.2.2.2.1⟩

theorem bbr3_main_not_to_probe_rtt (e : Event) (s : TcpState × Bbr3)
    (h : s.2.mode ≠ BbrMode.BBR_PROBE_RTT) :
    (bbr3_main e s).2.mode ≠ BbrMode.BBR_PROBE_RTT := by
  rcases bbr3_main_mode_cases e s with hc | hc | hc | hc
  · rw [hc]; exact h
  · rw [hc.2]; decide
  · rw [hc.2]; decide
  · exact absurd hc.1 h

theorem bbr3_run_not_probe_rtt (es : List Event) : ∀ s : TcpState × Bbr3,
    s.2.mode ≠ BbrMode.BBR_PROBE_RTT →
    (bbr3_run s es).2.mode ≠ BbrMode.BBR_PROBE_RTT := by
  induction es with
  | nil => exact fun s h => h
  | cons e t ih =>
      intro s h
      have hstep := bbr3_main_not_to_probe_rtt e s h
      simpa [bbr3_run, List.foldl_cons] using ih (bbr3_main e s) hstep

/-- C4 (amended): the state machine never enters PROBE_RTT — there is no
transition into it, however stale the min-RTT estimate is — neither in one
model update nor along any event sequence; the only PROBE_RTT logic present
is its exit: from PROBE_RTT, once `now` is after `probe_rtt_done_stamp`, the
mode returns to PROBE_BW with the pacing gain reset to 1× (256).  The
4-segment floor is the unconditional window floor of `bbr3_set_cwnd`, not a
PROBE_RTT-specific reduction. -/
theorem bbr3_no_probe_rtt_entry (e : Event) (tp : TcpState) (bbr : Bbr3)
    (s : TcpState × Bbr3) (es : List Event) :
    (bbr.mode ≠ BbrMode.BBR_PROBE_RTT →
      (bbr3_update_model e tp bbr).mode ≠ BbrMode.BBR_PROBE_RTT) ∧
    (s.2.mode ≠ BbrMode.BBR_PROBE_RTT →
      (bbr3_run s es).2.mode ≠ BbrMode.BBR_PROBE_RTT) ∧
    (bbr.mode = BbrMode.BBR_PROBE_RTT →
      after e.now bbr.probe_rtt_done_stamp = true →
      (bbr3_update_model e tp bbr).mode = BbrMode.BBR_PROBE_BW ∧
      (bbr3_update_model e tp bbr).pacing_gain = BBR_UNIT) := by
  have hfil := bbr3_filters_frame e bbr
  have hmodel : bbr3_update_model e tp bbr = bbr3_transition e tp (bbr3_filters e bbr) := rfl
  refine ⟨?_, bbr3_run_not_probe_rtt es s, ?_⟩
  · intro h
    rw [hmodel]
    rcases bbr3_transition_mode_cases e tp (bbr3_filters e bbr) with hc | hc | hc | hc
    · rw [hc, hfil.1]; exact h
    · rw [hc.2]; decide
    · rw [hc.2]; decide
    · exact absurd (hfil.1.symm.trans hc.1) h
  · intro hm hafter
    rw [hmodel]
    unfold bbr3_transition
    rw [hfil.1.trans hm, hfil.2.2.2.1, hafter]
    simp

/-- C4 counterexample: at a sample event where the min-RTT estimate's age
(100000 jiffies since stamp 0) exceeds the 5-second filter window, the state
machine stays in PROBE_BW — it does not enter PROBE_RTT. -/
theorem bbr3_probe_rtt_not_entered_cex :
    rtt_filter_expired cex_stale_event.now cex_stale_bbr.min_rtt_stamp = true ∧
    (bbr3_update_model cex_stale_event cex_stale_tp cex_stale_bbr).mode =
      BbrMode.BBR_PROBE_BW ∧
    BbrMode.BBR_PROBE_BW ≠ BbrMode.BBR_PROBE_RTT := by
  decide

theorem bbr3_transition_probe_bw_gain (e : Event) (tp : TcpState) (bbr : Bbr3)
    (hm : (bbr3_transition e tp bbr).mode = BbrMode.BBR_PROBE_BW) :
    (bbr3_transition e tp bbr).pacing_gain = BBR_UNIT ∨
    (bbr.mode = BbrMode.BBR_PROBE_BW ∧
      (bbr3_transition e tp bbr).pacing_gain = bbr.pacing_gain) := by
  unfold bbr3_transition at hm ⊢
  cases hmode : bbr.mode <;> (try split_ifs at hm ⊢) <;> simp_all

/-- C5 (amended): in every reachable PROBE_BW state the pacing gain is
exactly 1× (`BBR_UNIT` = 256): the PROBE_BW case of the state machine is
empty, so no gain cycling happens and the gain never rises above 1×; the
8-entry `bbr_pacing_gain` table (a 5/4 probing entry, a 3/4 draining entry,
six 1× entries) is declared but never consulted. -/
theorem bbr3_probe_bw_gain_const (s : TcpState × Bbr3) (h : Reachable s)
    (hm : s.2.mode = BbrMode.BBR_PROBE_BW) : s.2.pacing_gain = BBR_UNIT := by
  revert hm
  induction h with
  | init tp now =>
      intro hm
      simp [bbr3_init] at hm
  | step e s hs ih =>
      intro hm
      have hproj := bbr3_main_proj e s
      rw [hproj.2.2.2.2.2.1] at hm
      rw [hproj.2.2.2.2.2.2.1]
      have hmodel : bbr3_update_model e s.1 s.2 =
          bbr3_transition e s.1 (bbr3_filters e s.2) := rfl
      rw [hmodel] at hm ⊢
      rcases bbr3_transition_probe_bw_gain e s.1 (bbr3_filters e s.2) hm with hg | hg
      · exact hg
      · rw [hg.2, (bbr3_filters_frame e s.2).2.1]
        exact ih ((bbr3_filters_frame e s.2).1.symm.trans hg.1)

/-- C5 witness: the concrete reachable PROBE_BW state reached after five
events has pacing gain exactly `BBR_UNIT`. -/
theorem bbr3_probe_bw_gain_const_witness :
    demo_probe_bw_state.2.pacing_gain = BBR_UNIT :=
  bbr3_probe_bw_gain_const demo_probe_bw_state demo_probe_bw_reachable (by decide)

/-- C5 counterexample: from the concrete reachable PROBE_BW state, over each
of the next 1..8 successive sample events the pacing gain stays exactly 256
(= 1×) and the phase stays PROBE_BW — there is no cycle with a gain above 1×
(nor below), contradicting the claimed repeating gain sequence. -/
theorem bbr3_probe_bw_no_cycle_cex :
    demo_probe_bw_state.2.mode = BbrMode.BBR_PROBE_BW ∧
    ((List.range 8).all (fun k =>
      decide ((bbr3_run demo_probe_bw_state (List.replicate (k + 1) demo_e1)).2.pacing_gain
          = BBR_UNIT ∧
        (bbr3_run demo_probe_bw_state (List.replicate (k + 1) demo_e1)).2.mode
          = BbrMode.BBR_PROBE_BW)) = true) ∧
    BBR_UNIT = 256 := by
  decide

/-- C7 (amended): when at least one segment was acked and the phase is not
STARTUP, `bbr3_set_cwnd` refines the specification's window formula: with a
known min RTT (field below the `~0U` sentinel) and a nonzero bandwidth it
applies the gain-scaled BDP plus 3-MSS headroom capped by
`snd_cwnd + acked`, and otherwise the additive fallback `snd_cwnd + acked`;
the result is then floored at 4 and clamped (the hypotheses bound each
intermediate below 2^32 so no `u32` truncation occurs).  In STARTUP, or when
nothing was acked, the BDP path is bypassed — see the counterexample. -/
theorem bbr3_set_cwnd_refines_spec (tp : TcpState) (bbr : Bbr3) (acked bw gain : Nat)
    (hacked : acked ≠ 0)
    (hmode : bbr.mode ≠ BbrMode.BBR_STARTUP)
    (hrtt : bbr.min_rtt_us < U32_LIMIT)
    (ht1 : bw * bbr.min_rtt_us / BW_UNIT < U32_LIMIT)
    (ht2 : bw * bbr.min_rtt_us / BW_UNIT * gain < U32_LIMIT)
    (ht3 : bw * bbr.min_rtt_us / BW_UNIT * gain / BBR_UNIT + 3 * tp.mss_cache < U32_LIMIT)
    (hcw : tp.snd_cwnd + acked < U32_LIMIT) :
    (bbr3_set_cwnd tp bbr acked bw gain).1.snd_cwnd =
      min (max (spec_compute_window bw
        (if bbr.min_rtt_us = U32_LIMIT - 1 then none else some bbr.min_rtt_us)
        gain tp.snd_cwnd acked tp.mss_cache) 4) tp.snd_cwnd_clamp ∧
    (bbr.min_rtt_us ≠ U32_LIMIT - 1 → bw ≠ 0 →
      (bbr3_set_cwnd tp bbr acked bw gain).2.target_cwnd =
        bw * bbr.min_rtt_us / BW_UNIT * gain / BBR_UNIT + 3 * tp.mss_cache) := by
  have hmss : 3 * tp.mss_cache < U32_LIMIT :=
    lt_of_le_of_lt (Nat.le_add_left _ _) ht3
  simp only [BBR_UNIT] at ht3 ⊢
  by_cases hbdp : bbr.min_rtt_us < U32_LIMIT - 1 ∧ bw ≠ 0
  · have hsent : ¬(bbr.min_rtt_us = U32_LIMIT - 1) := by omega
    simp only [bbr3_set_cwnd, spec_compute_window, if_neg hacked, if_neg hmode,
      if_pos hbdp, if_neg hsent, if_neg hbdp.2,
      Nat.mod_eq_of_lt ht1, Nat.mod_eq_of_lt ht2, Nat.mod_eq_of_lt hmss,
      Nat.mod_eq_of_lt ht3, Nat.mod_eq_of_lt hcw]
    exact ⟨rfl, fun _ _ => trivial⟩
  · constructor
    · by_cases hsent : bbr.min_rtt_us = U32_LIMIT - 1
      · simp only [bbr3_set_cwnd, spec_compute_window, if_neg hacked, if_neg hmode,
          if_pos hsent, if_neg hbdp, Nat.mod_eq_of_lt hcw]
      · have hbw : bw = 0 := by
          by_contra hb
          exact hbdp ⟨by omega, hb⟩
        simp only [bbr3_set_cwnd, spec_compute_window, if_neg hacked, if_neg hmode,
          if_neg hsent, if_neg hbdp, if_pos hbw, Nat.mod_eq_of_lt hcw]
    · intro hne hbw
      exact absurd ⟨by omega, hbw⟩ hbdp

/-- C7 witness: at bandwidth 2^24, min RTT 1000 and gain 256, the computed
window equals the spec formula floored at 4 and clamped. -/
theorem bbr3_set_cwnd_refines_spec_witness :
    (bbr3_set_cwnd c7_tp c7_bbr 1 (2 ^ 24) 256).1.snd_cwnd =
      min (max (spec_compute_window (2 ^ 24)
        (if c7_bbr.min_rtt_us = U32_LIMIT - 1 then none else some c7_bbr.min_rtt_us)
        256 c7_tp.snd_cwnd 1 c7_tp.mss_cache) 4) c7_tp.snd_cwnd_clamp ∧
    (c7_bbr.min_rtt_us ≠ U32_LIMIT - 1 → (2 ^ 24 : Nat) ≠ 0 →
      (bbr3_set_cwnd c7_tp c7_bbr 1 (2 ^ 24) 256).2.target_cwnd =
        2 ^ 24 * c7_bbr.min_rtt_us / BW_UNIT * 256 / BBR_UNIT + 3 * c7_tp.mss_cache) :=
  bbr3_set_cwnd_refines_spec c7_tp c7_bbr 1 (2 ^ 24) 256 (by decide) (by decide)
    (by decide) (by decide) (by decide) (by decide) (by decide)

/-- C7 counterexample: (a) in STARTUP, with min RTT known (1000) and nonzero
bandwidth 2^24, the window becomes `snd_cwnd + acked` = 10001 and the target
field stays 0, not the claimed BDP value 1300; (b) with `acked = 0` the BDP
path is also bypassed: the window stays 10000 and the target field is
cleared to 0. -/
theorem bbr3_set_cwnd_startup_cex :
    c7_cex_startup.min_rtt_us = 1000 ∧ (2 ^ 24 : Nat) ≠ 0 ∧
    c7_cex_startup.mode = BbrMode.BBR_STARTUP ∧
    (bbr3_set_cwnd c7_cex_tp c7_cex_startup 1 (2 ^ 24) 256).1.snd_cwnd = 10001 ∧
    (bbr3_set_cwnd c7_cex_tp c7_cex_startup 1 (2 ^ 24) 256).2.target_cwnd = 0 ∧
    spec_compute_window (2 ^ 24) (some 1000) 256 10000 1 100 = 1300 ∧
    (10001 : Nat) ≠ 1300 ∧
    (bbr3_set_cwnd c7_cex_tp c7_cex_probe 0 (2 ^ 24) 256).1.snd_cwnd = 10000 ∧
    (bbr3_set_cwnd c7_cex_tp c7_cex_probe 0 (2 ^ 24) 256).2.target_cwnd = 0 := by
  decide

/-- C8 (amended): for every sample event that acked at least one segment,
and a configured maximum window of at least 4, the congestion window written
by `bbr3_set_cwnd` is between the 4-segment floor and `snd_cwnd_clamp` — for
all inputs, including zero bandwidth and unknown min RTT.  (The stored
`target_cwnd` diagnostic field is not so bounded: it is 0 whenever the BDP
path is not taken and is never clamped — see the counterexample.) -/
theorem bbr3_snd_cwnd_bounds (tp : TcpState) (bbr : Bbr3) (acked bw gain : Nat)
    (hacked : acked ≠ 0) (hclamp : 4 ≤ tp.snd_cwnd_clamp) :
    4 ≤ (bbr3_set_cwnd tp bbr acked bw gain).1.snd_cwnd ∧
    (bbr3_set_cwnd tp bbr acked bw gain).1.snd_cwnd ≤ tp.snd_cwnd_clamp := by
  unfold bbr3_set_cwnd
  split_ifs <;> simp_all

/-- C8 witness: with nothing known (zero bandwidth, sentinel min RTT) and one
acked segment the window still lands in [4, clamp]. -/
theorem bbr3_snd_cwnd_bounds_witness :
    4 ≤ (bbr3_set_cwnd demo_tp bbr3_demo_base 1 0 512).1.snd_cwnd ∧
    (bbr3_set_cwnd demo_tp bbr3_demo_base 1 0 512).1.snd_cwnd ≤ demo_tp.snd_cwnd_clamp :=
  bbr3_snd_cwnd_bounds demo_tp bbr3_demo_base 1 0 512 (by decide) (by decide)

/-- C8 counterexample: after a valid STARTUP sample event the stored
`target_cwnd` is 0, below the 4-segment floor; and after a valid PROBE_BW
event with a large model it is 3200300, far above the configured maximum
window 1000 — the field is neither floored nor clamped. -/
theorem bbr3_target_cwnd_floor_cex :
    (bbr3_main c8_cex_event (c8_cex_tp, bbr3_demo_base)).2.target_cwnd = 0 ∧
    (0 : Nat) < 4 ∧
    (bbr3_main c8_cex_event_nortt (c8_cex_tp, c8_cex_big)).2.target_cwnd = 3200300 ∧
    c8_cex_tp.snd_cwnd_clamp = 1000 ∧
    (1000 : Nat) < 3200300 := by
  decide

/-- C9 (amended): a sample with a negative delivered count or non-positive
interval is rejected by the bandwidth filter, so the bandwidth state
(`full_bandwidth`, `full_bandwidth_count`, `full_bandwidth_reached`) is
unchanged and no error is reported; but only the bandwidth filter drops it —
the min-RTT filter, the phase transition check and the window update still
run on such a sample and can change the rest of the state (see the
counterexample). -/
theorem bbr3_invalid_sample_bw_frame (e : Event) (s : TcpState × Bbr3)
    (h : e.rs.delivered < 0 ∨ e.rs.interval_us ≤ 0) :
    (bbr3_main e s).2.full_bandwidth = s.2.full_bandwidth ∧
    (bbr3_main e s).2.full_bandwidth_count = s.2.full_bandwidth_count ∧
    (bbr3_main e s).2.full_bandwidth_reached = s.2.full_bandwidth_reached := by
  have hproj := bbr3_main_proj e s
  have hinv : bbr3_update_bw s.2 e.rs = s.2 := by
    unfold bbr3_update_bw
    rw [if_pos h]
  exact ⟨hproj.1.trans (by rw [hinv]), hproj.2.1.trans (by rw [hinv]),
    hproj.2.2.1.trans (by rw [hinv])⟩

/-- C9 witness: the invalid sample leaves the three bandwidth fields of the
concrete DRAIN state unchanged. -/
theorem bbr3_invalid_sample_bw_frame_witness :
    (bbr3_main c9_event c9_state).2.full_bandwidth = c9_state.2.full_bandwidth ∧
    (bbr3_main c9_event c9_state).2.full_bandwidth_count =
      c9_state.2.full_bandwidth_count ∧
    (bbr3_main c9_event c9_state).2.full_bandwidth_reached =
      c9_state.2.full_bandwidth_reached :=
  bbr3_invalid_sample_bw_frame c9_event c9_state (by decide)

/-- C9 counterexample: the same invalid sample (`interval_us = 0`) does not
leave the estimator unchanged: the min-RTT filter still accepts its RTT
(100 → 10), the phase machine still transitions (DRAIN → PROBE_BW), and the
window update still grows `snd_cwnd` (10 → 11). -/
theorem bbr3_invalid_sample_cex :
    c9_event.rs.interval_us ≤ 0 ∧
    (bbr3_main c9_event c9_state).2.mode = BbrMode.BBR_PROBE_BW ∧
    c9_state.2.mode = BbrMode.BBR_DRAIN ∧
    (bbr3_main c9_event c9_state).2.min_rtt_us = 10 ∧
    c9_state.2.min_rtt_us = 100 ∧
    (bbr3_main c9_event c9_state).1.snd_cwnd = 11 ∧
    c9_state.1.snd_cwnd = 10 := by
  decide

theorem bbr3_main_frozen (e : Event) (s : TcpState × Bbr3)
    (h : s.2.full_bandwidth_reached = true) :
    (bbr3_main e s).2.full_bandwidth = s.2.full_bandwidth ∧
    (bbr3_main e s).2.full_bandwidth_count = s.2.full_bandwidth_count ∧
    (bbr3_main e s).2.full_bandwidth_reached = true := by
  have hproj := bbr3_main_proj e s
  have hfz := bbr3_update_bw_frozen s.2 e.rs h
  exact ⟨hproj.1.trans (by rw [hfz]), hproj.2.1.trans (by rw [hfz]),
    hproj.2.2.1.trans (by rw [hfz]; exact h)⟩

/-- C10: once `full_bandwidth_reached` is true, every subsequent sample
event — over any event sequence, including samples with a strictly higher
delivery rate — leaves `full_bandwidth` and `full_bandwidth_count`
unchanged and the flag true: the estimate is frozen at its plateau value. -/
theorem bbr3_full_bw_frozen (s : TcpState × Bbr3) (es : List Event)
    (h : s.2.full_bandwidth_reached = true) :
    (bbr3_run s es).2.full_bandwidth = s.2.full_bandwidth ∧
    (bbr3_run s es).2.full_bandwidth_count = s.2.full_bandwidth_count ∧
    (bbr3_run s es).2.full_bandwidth_reached = true := by
  induction es generalizing s with
  | nil => exact ⟨rfl, rfl, h⟩
  | cons e t ih =>
      have hstep := bbr3_main_frozen e s h
      have hrec := ih (bbr3_main e s) hstep.2.2
      have hrun : bbr3_run s (e :: t) = bbr3_run (bbr3_main e s) t := by
        simp [bbr3_run, List.foldl_cons]
      rw [hrun]
      exact ⟨hrec.1.trans hstep.1, hrec.2.1.trans hstep.2.1, hrec.2.2⟩

/-- C10 witness: from a plateaued state with estimate 100, two samples of
rate 2^24 (far above 100) leave the bandwidth state untouched. -/
theorem bbr3_full_bw_frozen_witness :
    (bbr3_run (demo_tp, cex_frozen_state) [demo_e1, demo_e1]).2.full_bandwidth =
      (demo_tp, cex_frozen_state).2.full_bandwidth ∧
    (bbr3_run (demo_tp, cex_frozen_state) [demo_e1, demo_e1]).2.full_bandwidth_count =
      (demo_tp, cex_frozen_state).2.full_bandwidth_count ∧
    (bbr3_run (demo_tp, cex_frozen_state) [demo_e1, demo_e1]).2.full_bandwidth_reached =
      true :=
  bbr3_full_bw_frozen (demo_tp, cex_frozen_state) [demo_e1, demo_e1] (by decide)
